import Mathlib

/-
Verification development for the rustychip CHIP-8 emulator core (src/cpu.rs).

Shallow embedding conventions:
  * Machine integers (u8, u16, usize) are modelled as Nat. Where the Rust
    source performs unannotated arithmetic on u8/u16 operands, the model wraps
    modulo 2^8 / 2^16 (release-mode semantics); explicit wrapping_add /
    wrapping_sub calls wrap likewise.
  * Every Vec<u8>/Vec<u16> of the CPU struct is allocated once with a fixed
    length (memory 4096, gfx 64*32, registers 16, stack 16, keypad 16) and is
    never resized; each is modelled as a total function Nat -> Nat together
    with that fixed length. Rust indexing vec[i] panics when i is out of
    bounds, in every build profile; a panic is modelled as Option.none, so
    every indexed read goes through vecGet and every indexed write through
    vecSet, which fail out of bounds. A step of the machine is therefore a
    function CPU -> Option CPU, with none meaning the Rust process aborts.
  * rand::random::<u8>() inside the Rand arm is modelled by passing the drawn
    byte rnd as an explicit argument to emulate / emulate_cycle.
  * The debug_current_opcode field of the Rust struct is omitted: it is only
    assigned and then printed by the fmt::Display impl, and no instruction
    semantics reads it.
-/

namespace Chip8

/-- Length of the CPU memory vector (vec![0; 4096]). -/
def MEMORY_LEN : Nat := 4096

/-- Length of the framebuffer vector (vec![0; 64 * 32]). -/
def GFX_LEN : Nat := 64 * 32

/-- Length of the register file (vec![0; 16]). -/
def REG_LEN : Nat := 16

/-- Length of the stack vector (vec![0; 16]). -/
def STACK_LEN : Nat := 16

/-- Length of the keypad vector (vec![0; 16]). -/
def KEYPAD_LEN : Nat := 16

/-- Checked read of a fixed-length Rust vector: vec[i], a panic (none) when
the index is out of bounds. -/
def vecGet (len : Nat) (f : Nat → Nat) (i : Nat) : Option Nat :=
  if i < len then some (f i) else none

/-- Checked write to a fixed-length Rust vector: vec[i] = v, a panic (none)
when the index is out of bounds. -/
def vecSet (len : Nat) (f : Nat → Nat) (i v : Nat) : Option (Nat → Nat) :=
  if i < len then some (fun j => if j = i then v else f j) else none

/-- u8 wrapping addition (wrapping_add, and release-mode u8 +). -/
def wadd8 (a b : Nat) : Nat := (a + b) % 256

/-- u8 wrapping subtraction (wrapping_sub): a - b modulo 256. -/
def wsub8 (a b : Nat) : Nat := (a % 256 + 256 - b % 256) % 256

/-- The register file: struct Register { v: Vec<u8> } of src/cpu.rs. -/
structure Register where
  v : Nat → Nat

/-- The Opcode enum of src/cpu.rs, one constructor per Rust variant, with the
u16 payloads as Nat. -/
inductive Opcode where
  | Ignore
  | ClearScreen
  | Return
  | Jump (nnn : Nat)
  | SkipIfEqualAddress (x nn : Nat)
  | SkipIfNotEqualAddress (x nn : Nat)
  | SkipIfEqualRegister (x y : Nat)
  | SetRegister (x nn : Nat)
  | SetIndexRegister (nnn : Nat)
  | CallSubroutine (nnn : Nat)
  | Display (x y n : Nat)
  | Add (x y : Nat)
  | AddAddressToRegister (x nn : Nat)
  | Assign (x y : Nat)
  | AssignOr (x y : Nat)
  | AssignAnd (x y : Nat)
  | AssignXor (x y : Nat)
  | Subtract (x y : Nat)
  | LeastSigStoreAndShift (x y : Nat)
  | SetSubtract (x y : Nat)
  | MostSigStoreAndShift (x y : Nat)
  | SkipIfUnequalRegisters (x y : Nat)
  | Flow (nnn : Nat)
  | Rand (x nn : Nat)
  | SkipIfKeyPressed (x : Nat)
  | SkipIfNotKeyPressed (x : Nat)
  | GetDelayTimer (x : Nat)
  | AwaitKeyPress (x : Nat)
  | SetDelayTimer (x : Nat)
  | SetSoundTimer (x : Nat)
  | AddToIndexRegister (x : Nat)
  | SetIndexRegisterToSpriteLocation (x : Nat)
  | StoreBinaryCodedDecimal (x : Nat)
  | RegisterDump (x : Nat)
  | RegisterLoad (x : Nat)
  | UNKNOWN (n1 n2 n3 n4 : Nat)
deriving DecidableEq, Repr

/-- The CPU struct of src/cpu.rs (debug_current_opcode omitted, see the file
header comment). -/
structure CPU where
  memory : Nat → Nat
  index_register : Nat
  gfx : Nat → Nat
  program_counter : Nat
  register : Register
  delay_timer : Nat
  sound_timer : Nat
  stack : Nat → Nat
  stack_pointer : Nat
  keypad : Nat → Nat
  draw_flag : Bool

/-- The FONTSET static of src/cpu.rs: 80 bytes, 5 per hexadecimal glyph. -/
def FONTSET : List Nat :=
  [0xF0, 0x90, 0x90, 0x90, 0xF0, 0x20, 0x60, 0x20, 0x20, 0x70, 0xF0, 0x10, 0xF0, 0x80, 0xF0, 0xF0,
   0x10, 0xF0, 0x10, 0xF0, 0x90, 0x90, 0xF0, 0x10, 0x10, 0xF0, 0x80, 0xF0, 0x10, 0xF0, 0xF0, 0x80,
   0xF0, 0x90, 0xF0, 0xF0, 0x10, 0x20, 0x40, 0x40, 0xF0, 0x90, 0xF0, 0x90, 0xF0, 0xF0, 0x90, 0xF0,
   0x10, 0xF0, 0xF0, 0x90, 0xF0, 0x90, 0x90, 0xE0, 0x90, 0xE0, 0x90, 0xE0, 0xF0, 0x80, 0x80, 0x80,
   0xF0, 0xE0, 0x90, 0x90, 0x90, 0xE0, 0xF0, 0x80, 0xF0, 0x80, 0xF0, 0xF0, 0x80, 0xF0, 0x80, 0x80]

/-- CPU::new(): zero-filled state, PC at 0x200, and the constructor loop that
writes FONTSET over the first 80 bytes of memory. -/
def CPU.new : CPU :=
  { memory := fun i => if i < FONTSET.length then FONTSET.getD i 0 else 0
    keypad := fun _ => 0
    stack := fun _ => 0
    gfx := fun _ => 0
    delay_timer := 0
    sound_timer := 0
    stack_pointer := 0
    index_register := 0
    program_counter := 0x200
    draw_flag := false
    register := ⟨fun _ => 0⟩ }

/-- Writes the bytes of data into m starting at addr: the loop of
CPU::load_rom (the concrete roms used below always fit in memory, so the
unchecked writes of the source cannot go out of bounds on them). -/
def storeBytes (m : Nat → Nat) (addr : Nat) (data : List Nat) : Nat → Nat :=
  match data with
  | [] => m
  | d :: rest => storeBytes (fun j => if j = addr then d else m j) (addr + 1) rest

/-- CPU::load_rom: copies the rom bytes into memory starting at 0x200. -/
def load_rom (c : CPU) (rom : List Nat) : CPU :=
  { c with memory := storeBytes c.memory 0x200 rom }

/-- CPU::fetch: reads the two bytes at PC and PC+1 and forms the big-endian
16-bit opcode. -/
def fetch (c : CPU) : Option Nat := do
  let opcode1 ← vecGet MEMORY_LEN c.memory c.program_counter
  let opcode2 ← vecGet MEMORY_LEN c.memory (c.program_counter + 1)
  pure ((opcode1 <<< 8) ||| opcode2)

/-- CPU::decode of src/cpu.rs: splits the opcode into four nibbles and maps
the nibble pattern to an Opcode value, in the source match order. -/
def decode (opcode : Nat) : Opcode :=
  let nib1 := (opcode &&& 0xF000) >>> 12
  let nib2 := (opcode &&& 0x0F00) >>> 8
  let nib3 := (opcode &&& 0x00F0) >>> 4
  let nib4 := opcode &&& 0x000F
  let nnn := opcode &&& 0x0FFF
  let nn := opcode &&& 0x00FF
  match nib1, nib2, nib3, nib4 with
  | 0x0, 0x0, 0x0, 0x0 => .Ignore
  | 0x0, 0x0, 0xE, 0xE => .ClearScreen
  | 0x0, 0x0, 0xE, 0x0 => .Return
  | 0x1, _, _, _ => .Jump nnn
  | 0x2, _, _, _ => .CallSubroutine nnn
  | 0x3, n1, _, _ => .SkipIfEqualAddress n1 nn
  | 0x4, n1, _, _ => .SkipIfNotEqualAddress n1 nn
  | 0x5, n1, n2, 0x0 => .SkipIfEqualRegister n1 n2
  | 0x6, n1, _, _ => .SetRegister n1 nn
  | 0x7, n1, _, _ => .AddAddressToRegister n1 nn
  | 0x8, n1, n2, 0x0 => .Assign n1 n2
  | 0x8, n1, n2, 0x1 => .AssignOr n1 n2
  | 0x8, n1, n2, 0x2 => .AssignAnd n1 n2
  | 0x8, n1, n2, 0x3 => .AssignXor n1 n2
  | 0x8, n1, n2, 0x4 => .Add n1 n2
  | 0x8, n1, n2, 0x5 => .Subtract n1 n2
  | 0x8, n1, n2, 0x6 => .LeastSigStoreAndShift n1 n2
  | 0x8, n1, n2, 0x7 => .SetSubtract n1 n2
  | 0x8, n1, n2, 0xE => .MostSigStoreAndShift n1 n2
  | 0x9, n1, n2, 0x0 => .SkipIfUnequalRegisters n1 n2
  | 0xA, _, _, _ => .SetIndexRegister nnn
  | 0xB, _, _, _ => .Flow nnn
  | 0xC, n1, _, _ => .Rand n1 nn
  | 0xD, n1, n2, n3 => .Display n1 n2 n3
  | 0xE, n1, 0x9, 0xE => .SkipIfKeyPressed n1
  | 0xE, n1, 0xA, 0x1 => .SkipIfNotKeyPressed n1
  | 0xF, n1, 0x0, 0x7 => .GetDelayTimer n1
  | 0xF, n1, 0x0, 0xA => .AwaitKeyPress n1
  | 0xF, n1, 0x1, 0x5 => .SetDelayTimer n1
  | 0xF, n1, 0x1, 0x8 => .SetSoundTimer n1
  | 0xF, n1, 0x1, 0xE => .AddToIndexRegister n1
  | 0xF, n1, 0x2, 0x9 => .SetIndexRegisterToSpriteLocation n1
  | 0xF, n1, 0x3, 0x3 => .StoreBinaryCodedDecimal n1
  | 0xF, n1, 0x5, 0x5 => .RegisterDump n1
  | 0xF, n1, 0x6, 0x5 => .RegisterLoad n1
  | n1, n2, n3, n4 => .UNKNOWN n1 n2 n3 n4

/-- The timer decrement and draw-flag reset that CPU::emulate performs before
dispatching on the opcode. -/
def tickTimers (c : CPU) : CPU :=
  let c := if c.delay_timer > 0 then { c with delay_timer := c.delay_timer - 1 } else c
  let c := if c.sound_timer > 0 then { c with sound_timer := c.sound_timer - 1 } else c
  { c with draw_flag := false }

/-- One iteration of the inner xline loop of the Display arm: masks out bit
xline of the sprite row byte, and when it is set, records a collision in VF
if the target pixel is lit, then XORs the pixel. The index is the u16 value
vx + xline + (vy + yline) * 64, with no modulo-64/32 coordinate wrap. -/
def displayCol (byte vx vy yline : Nat) (c : CPU) (xline : Nat) : Option CPU :=
  let bit := byte &&& (0x80 >>> xline)
  let index := (vx + xline + (vy + yline) * 64) % 65536
  if bit != 0 then do
    let px ← vecGet GFX_LEN c.gfx index
    let c ← if px == 1 then do
        let r ← vecSet REG_LEN c.register.v 0xF 1
        pure { c with register := ⟨r⟩ }
      else pure c
    let g ← vecSet GFX_LEN c.gfx index (px ^^^ 1)
    pure { c with gfx := g }
  else pure c

/-- One iteration of the outer yline loop of the Display arm: reads the row
byte at I + yline, resets VF to 0 (inside the row loop, exactly as the source
does), then runs the eight column iterations. -/
def displayRow (vx vy : Nat) (c : CPU) (yline : Nat) : Option CPU := do
  let byte ← vecGet MEMORY_LEN c.memory ((c.index_register + yline) % 65536)
  let r ← vecSet REG_LEN c.register.v 0xF 0
  let c := { c with register := ⟨r⟩ }
  List.foldlM (displayCol byte vx vy yline) c (List.range 8)

/-- CPU::emulate of src/cpu.rs: ticks the timers, resets the draw flag, then
executes the decoded opcode. rnd is the byte rand::random() would return in
the Rand arm. none models a Rust index-out-of-bounds panic. -/
def emulate (c0 : CPU) (opcode : Opcode) (rnd : Nat) : Option CPU :=
  let c := tickTimers c0
  match opcode with
  | .Ignore => pure c
  | .ClearScreen =>
      -- The source arm is only a comment and the PC bump: nothing is cleared.
      pure { c with program_counter := c.program_counter + 2 }
  | .Return => do
      let p ← vecGet STACK_LEN c.stack c.stack_pointer
      let c := { c with program_counter := p }
      if c.stack_pointer > 0 then
        pure { c with stack_pointer := c.stack_pointer - 1 }
      else
        pure c
  | .Jump nnn => pure { c with program_counter := nnn }
  | .CallSubroutine nnn => do
      let st ← vecSet STACK_LEN c.stack c.stack_pointer (c.program_counter % 65536)
      pure { c with stack := st, stack_pointer := c.stack_pointer + 1, program_counter := nnn }
  | .SkipIfEqualAddress x nn => do
      let vx ← vecGet REG_LEN c.register.v x
      pure { c with program_counter := c.program_counter + (if vx == nn % 256 then 4 else 2) }
  | .SkipIfNotEqualAddress x nn => do
      let vx ← vecGet REG_LEN c.register.v x
      pure { c with program_counter := c.program_counter + (if vx != nn % 256 then 4 else 2) }
  | .SkipIfEqualRegister x y => do
      let vx ← vecGet REG_LEN c.register.v x
      let vy ← vecGet REG_LEN c.register.v y
      pure { c with program_counter := c.program_counter + (if vx == vy then 4 else 2) }
  | .SetRegister x nn => do
      let r ← vecSet REG_LEN c.register.v x (nn % 256)
      pure { c with register := ⟨r⟩, program_counter := c.program_counter + 2 }
  | .AddAddressToRegister x nn => do
      let vx ← vecGet REG_LEN c.register.v x
      let r ← vecSet REG_LEN c.register.v x (wadd8 vx (nn % 256))
      pure { c with register := ⟨r⟩, program_counter := c.program_counter + 2 }
  | .Assign x y => do
      let vy ← vecGet REG_LEN c.register.v y
      let r ← vecSet REG_LEN c.register.v x vy
      pure { c with register := ⟨r⟩, program_counter := c.program_counter + 2 }
  | .AssignOr x y => do
      let vx ← vecGet REG_LEN c.register.v x
      let vy ← vecGet REG_LEN c.register.v y
      let r ← vecSet REG_LEN c.register.v x (vx ||| vy)
      pure { c with register := ⟨r⟩, program_counter := c.program_counter + 2 }
  | .AssignAnd x y => do
      let vx ← vecGet REG_LEN c.register.v x
      let vy ← vecGet REG_LEN c.register.v y
      let r ← vecSet REG_LEN c.register.v x (vx &&& vy)
      pure { c with register := ⟨r⟩, program_counter := c.program_counter + 2 }
  | .AssignXor x y => do
      let vx ← vecGet REG_LEN c.register.v x
      let vy ← vecGet REG_LEN c.register.v y
      let r ← vecSet REG_LEN c.register.v x (vx ^^^ vy)
      pure { c with register := ⟨r⟩, program_counter := c.program_counter + 2 }
  | .Add x y => do
      -- VF is written first; the operands are then re-read, as in the source.
      let vx ← vecGet REG_LEN c.register.v x
      let vy ← vecGet REG_LEN c.register.v y
      let r ← vecSet REG_LEN c.register.v 0xF (if vx > 0xFF - vy then 1 else 0)
      let c := { c with register := ⟨r⟩ }
      let vx2 ← vecGet REG_LEN c.register.v x
      let vy2 ← vecGet REG_LEN c.register.v y
      let r2 ← vecSet REG_LEN c.register.v x (wadd8 vx2 vy2)
      pure { c with register := ⟨r2⟩, program_counter := c.program_counter + 2 }
  | .Subtract x y => do
      let vx ← vecGet REG_LEN c.register.v x
      let vy ← vecGet REG_LEN c.register.v y
      let r ← vecSet REG_LEN c.register.v 0xF (if vy > vx then 0 else 1)
      let c := { c with register := ⟨r⟩ }
      let vx2 ← vecGet REG_LEN c.register.v x
      let vy2 ← vecGet REG_LEN c.register.v y
      let r2 ← vecSet REG_LEN c.register.v x (wsub8 vx2 vy2)
      pure { c with register := ⟨r2⟩, program_counter := c.program_counter + 2 }
  | .LeastSigStoreAndShift x _ => do
      let vx ← vecGet REG_LEN c.register.v x
      let r ← vecSet REG_LEN c.register.v 0xF (vx &&& 0x1)
      let c := { c with register := ⟨r⟩ }
      let vx2 ← vecGet REG_LEN c.register.v x
      let r2 ← vecSet REG_LEN c.register.v x (vx2 >>> 1)
      pure { c with register := ⟨r2⟩, program_counter := c.program_counter + 2 }
  | .SetSubtract x y => do
      let vx ← vecGet REG_LEN c.register.v x
      let vy ← vecGet REG_LEN c.register.v y
      let r ← vecSet REG_LEN c.register.v 0xF (if vy < vx then 0 else 1)
      let c := { c with register := ⟨r⟩ }
      let vx2 ← vecGet REG_LEN c.register.v x
      let vy2 ← vecGet REG_LEN c.register.v y
      let r2 ← vecSet REG_LEN c.register.v x (wsub8 vy2 vx2)
      pure { c with register := ⟨r2⟩, program_counter := c.program_counter + 2 }
  | .MostSigStoreAndShift x _ => do
      let vx ← vecGet REG_LEN c.register.v x
      let most_significant_bit := (vx &&& 0x80) >>> 7
      let r ← vecSet REG_LEN c.register.v 0xF most_significant_bit
      let c := { c with register := ⟨r⟩ }
      let vx2 ← vecGet REG_LEN c.register.v x
      let r2 ← vecSet REG_LEN c.register.v x ((vx2 <<< 1) % 256)
      pure { c with register := ⟨r2⟩, program_counter := c.program_counter + 2 }
  | .SkipIfUnequalRegisters x y => do
      -- The source adds 4 when the registers are EQUAL, 2 otherwise.
      let vx ← vecGet REG_LEN c.register.v x
      let vy ← vecGet REG_LEN c.register.v y
      pure { c with program_counter := c.program_counter + (if vx == vy then 4 else 2) }
  | .SetIndexRegister nnn =>
      pure { c with index_register := nnn, program_counter := c.program_counter + 2 }
  | .Flow nnn => do
      -- The source sets I, not PC: I = (memory[nnn] + V0) as u16, a u8 sum.
      let m ← vecGet MEMORY_LEN c.memory nnn
      let v0 ← vecGet REG_LEN c.register.v 0x0
      pure { c with index_register := wadd8 m v0, program_counter := c.program_counter + 2 }
  | .Rand x nn => do
      -- The source masks the random byte with memory[nn], not with nn.
      let m ← vecGet MEMORY_LEN c.memory nn
      let r ← vecSet REG_LEN c.register.v x (rnd &&& m)
      pure { c with register := ⟨r⟩, program_counter := c.program_counter + 2 }
  | .Display x y n => do
      let vx ← vecGet REG_LEN c.register.v x
      let vy ← vecGet REG_LEN c.register.v y
      let c ← List.foldlM (displayRow vx vy) c (List.range n)
      pure { c with draw_flag := true, program_counter := c.program_counter + 2 }
  | .SkipIfKeyPressed x => do
      let vx ← vecGet REG_LEN c.register.v x
      let k ← vecGet KEYPAD_LEN c.keypad vx
      let c := if k != 0 then { c with program_counter := c.program_counter + 2 } else c
      pure { c with program_counter := c.program_counter + 2 }
  | .SkipIfNotKeyPressed x => do
      let vx ← vecGet REG_LEN c.register.v x
      let k ← vecGet KEYPAD_LEN c.keypad vx
      let c := if k == 0 then { c with program_counter := c.program_counter + 2 } else c
      pure { c with program_counter := c.program_counter + 2 }
  | .GetDelayTimer x => do
      let r ← vecSet REG_LEN c.register.v x c.delay_timer
      pure { c with register := ⟨r⟩, program_counter := c.program_counter + 2 }
  | .AwaitKeyPress x => do
      -- for key in &self.keypad { if *key == 1 { pressed_key = *key } }
      let pressed_key := (List.range KEYPAD_LEN).foldl
        (fun pk i => if c.keypad i == 1 then c.keypad i else pk) 20
      if pressed_key != 20 then do
        let r ← vecSet REG_LEN c.register.v x pressed_key
        pure { c with register := ⟨r⟩, program_counter := c.program_counter + 2 }
      else
        pure c
  | .SetDelayTimer x => do
      let vx ← vecGet REG_LEN c.register.v x
      pure { c with delay_timer := vx, program_counter := c.program_counter + 2 }
  | .SetSoundTimer x => do
      let vx ← vecGet REG_LEN c.register.v x
      pure { c with sound_timer := vx, program_counter := c.program_counter + 2 }
  | .AddToIndexRegister x => do
      let vx ← vecGet REG_LEN c.register.v x
      pure { c with index_register := (c.index_register + vx) % 65536,
                    program_counter := c.program_counter + 2 }
  | .SetIndexRegisterToSpriteLocation x => do
      -- (v[x] * 5) is a u8 product in the source, cast to u16 afterwards.
      let vx ← vecGet REG_LEN c.register.v x
      pure { c with index_register := (vx * 5) % 256, program_counter := c.program_counter + 2 }
  | .StoreBinaryCodedDecimal pcn => do
      -- The source re-extracts x from the already-extracted nibble, so x = 0
      -- always; the third write targets I + 1 again, not I + 2.
      let x := (pcn &&& 0x0F00) >>> 8
      let vx ← vecGet REG_LEN c.register.v x
      let m1 ← vecSet MEMORY_LEN c.memory c.index_register (vx / 100)
      let m2 ← vecSet MEMORY_LEN m1 ((c.index_register + 1) % 65536) ((vx % 100) / 10)
      let m3 ← vecSet MEMORY_LEN m2 ((c.index_register + 1) % 65536) (vx % 10)
      pure { c with memory := m3, program_counter := c.program_counter + 2 }
  | .RegisterDump pcn => do
      -- Same re-extraction of x (always 0); the loop bound is x, not x + 1.
      let x := (pcn &&& 0x0F00) >>> 8
      let c ← List.foldlM (fun c i => do
          let vi ← vecGet REG_LEN c.register.v i
          let m ← vecSet MEMORY_LEN c.memory ((c.index_register + i) % 65536) vi
          pure { c with memory := m }) c (List.range x)
      pure { c with program_counter := c.program_counter + 2 }
  | .RegisterLoad pcn => do
      let x := (pcn &&& 0x0F00) >>> 8
      let c ← List.foldlM (fun c i => do
          let m ← vecGet MEMORY_LEN c.memory ((c.index_register + i) % 65536)
          let r ← vecSet REG_LEN c.register.v i m
          pure { c with register := ⟨r⟩ }) c (List.range x)
      pure { c with program_counter := c.program_counter + 2 }
  | .UNKNOWN _ _ _ _ =>
      -- The source only prints a diagnostic; PC is not advanced.
      pure c

/-- CPU::emulate_cycle: fetch, decode, execute. The Rust method returns the
draw flag; read it off the resulting state. -/
def emulate_cycle (c : CPU) (rnd : Nat) : Option CPU := do
  let opc ← fetch c
  emulate c (decode opc) rnd

/-- A state with a two-row sprite 0x80, 0x80 at I = 0x300 and the single
framebuffer pixel (0,0) lit: drawing it at (0,0) toggles that pixel off in
row 0 (a collision) and lights pixel (0,1) in row 1. -/
def C1state : CPU :=
  { CPU.new with
      index_register := 0x300
      memory := storeBytes CPU.new.memory 0x300 [0x80, 0x80]
      gfx := fun i => if i = 0 then 1 else 0 }

/-- A state with V0 = 63 and a one-row sprite 0xC0 at I = 0x300 on a cleared
framebuffer: with mod-64 wraparound its second set bit would land on pixel
(0,0). -/
def C1stateWrap : CPU :=
  { CPU.new with
      index_register := 0x300
      memory := storeBytes CPU.new.memory 0x300 [0xC0]
      register := ⟨fun i => if i = 0 then 63 else 0⟩ }

/-- A fresh machine whose rom is the single call instruction 0x2400. -/
def C2state : CPU := load_rom CPU.new [0x24, 0x00]

/-- A fresh machine with the single framebuffer pixel (0,0) lit. -/
def C3state : CPU := { CPU.new with gfx := fun i => if i = 0 then 1 else 0 }

/-- A fresh machine whose rom is the two bytes 0x00 0xE0 (the clear-screen
opcode of the claim), with the framebuffer pixel (0,0) lit. -/
def C3romState : CPU :=
  { load_rom CPU.new [0x00, 0xE0] with gfx := fun i => if i = 0 then 1 else 0 }

/-- A machine about to execute the sprite draw 0xD012 (x = 0, y = 1, n = 2)
with V1 = 31: row 1 of the sprite targets framebuffer row 32, index 2048,
one past the end of the 64*32 buffer. Reachable by a guest program (set V1
with 0x611F, then draw). -/
def C4state : CPU :=
  { load_rom CPU.new [0xD0, 0x12] with register := ⟨fun i => if i = 1 then 31 else 0⟩ }

/-- A machine whose stack pointer is at capacity 16, as after sixteen nested
calls: one more call writes stack slot 16, one past the end. -/
def C4stackState : CPU := { CPU.new with stack_pointer := 16 }

/-- A fresh machine with V0 = V1 = 5 (equal registers). -/
def C5stateEq : CPU := { CPU.new with register := ⟨fun i => if i ≤ 1 then 5 else 0⟩ }

/-- A fresh machine with V0 = 5, V1 = 6 (unequal registers). -/
def C5stateNe : CPU := { CPU.new with register := ⟨fun i => if i ≤ 1 then 5 + i else 0⟩ }

/-- A fresh machine with V0 = 234 and I = 0x300, the input of the spec BCD
example. -/
def C6state : CPU :=
  { CPU.new with register := ⟨fun i => if i = 0 then 234 else 0⟩, index_register := 0x300 }

/-- A fresh machine with (V0, V1, V2, V3) = (1, 2, 3, 4) and I = 0x300, the
input of the dump/load round-trip example. -/
def C7state : CPU :=
  { CPU.new with register := ⟨fun i => if i ≤ 3 then i + 1 else 0⟩, index_register := 0x300 }

/-- A machine with stack slot 0 holding 0x123 and the stack pointer at 0. -/
def C10state : CPU := { CPU.new with stack := fun i => if i = 0 then 0x123 else 0 }

theorem tickTimers_program_counter (c : CPU) :
    (tickTimers c).program_counter = c.program_counter := by
  unfold tickTimers; dsimp only; split <;> split <;> rfl

theorem tickTimers_register (c : CPU) : (tickTimers c).register = c.register := by
  unfold tickTimers; dsimp only; split <;> split <;> rfl

theorem tickTimers_gfx (c : CPU) : (tickTimers c).gfx = c.gfx := by
  unfold tickTimers; dsimp only; split <;> split <;> rfl

theorem tickTimers_stack (c : CPU) : (tickTimers c).stack = c.stack := by
  unfold tickTimers; dsimp only; split <;> split <;> rfl

theorem tickTimers_stack_pointer (c : CPU) :
    (tickTimers c).stack_pointer = c.stack_pointer := by
  unfold tickTimers; dsimp only; split <;> split <;> rfl

theorem tickTimers_memory (c : CPU) : (tickTimers c).memory = c.memory := by
  unfold tickTimers; dsimp only; split <;> split <;> rfl

/-- C1: the claim predicts VF = 1 whenever any drawn pixel toggles from 1 to
0 anywhere in the sprite, and mod-64/mod-32 coordinate wraparound. Executing
0xD002 on C1state toggles pixel (0,0) from 1 to 0 in row 0, yet the final VF
is 0, because the source resets VF inside the row loop and row 1 has no
collision. Executing 0xD011 (Vx = V0 = 63, Vy = V1 = 0, one row) on
C1stateWrap leaves pixel (0,0) dark and lights linear indices 63 and 64 =
pixels (63,0) and (0,1) instead, because the index 63 + xline + 0 * 64 is
used without any modulo-64 column wrap. -/
theorem C1_display_vf_reset_per_row_and_no_wrap :
    (emulate C1state (decode 0xD002) 0).map
      (fun c => (c.register.v 15, c.gfx 0, c.gfx 64)) = some (0, 0, 1) ∧
    (emulate C1stateWrap (decode 0xD011) 0).map
      (fun c => (c.gfx 0, c.gfx 63, c.gfx 64)) = some (0, 1, 1) := by
  exact ⟨by decide, by decide⟩

/-- C2: the claim predicts that call 0x2400 followed by the return
instruction restores PC to 0x202. In the source, opcode 0x00EE decodes to
ClearScreen rather than Return, and executing the Return variant after the
call sets PC to stack slot 1 (never written, still 0) because the pop reads
stack[sp] before decrementing: the round trip ends with PC = 0, not 0x202
(the stack pointer does return to 0). -/
theorem C2_call_return_does_not_restore_pc :
    decode 0x00EE = Opcode.ClearScreen ∧
    ((emulate_cycle C2state 0).bind (fun c => emulate c Opcode.Return 0)).map
      (fun c => (c.program_counter, c.stack_pointer)) = some (0, 0) := by
  exact ⟨rfl, by decide⟩

/-- C3: the claim predicts that opcode 0x00E0 zeroes the framebuffer and
advances PC by 2. In the source, 0x00E0 decodes to Return (the 00E0/00EE
arms are swapped), and the ClearScreen arm clears nothing: executing it on
C3state leaves pixel (0,0) lit (it only bumps PC), and a full cycle on a
machine whose current opcode is 0x00E0 leaves the pixel lit and sets PC from
stack slot 0 instead of advancing by 2. -/
theorem C3_clear_screen_clears_nothing :
    decode 0x00E0 = Opcode.Return ∧
    (emulate C3state Opcode.ClearScreen 0).map
      (fun c => (c.gfx 0, c.program_counter)) = some (1, 0x202) ∧
    (emulate_cycle C3romState 0).map
      (fun c => (c.gfx 0, c.program_counter)) = some (1, 0) := by
  exact ⟨rfl, by decide, by decide⟩

/-- C4: the claim predicts that a step never crashes: every access stays in
bounds or has a defined fallback. Executing one cycle of C4state (a sprite
draw whose second row targets framebuffer index 2048, one past the end)
aborts with an index-out-of-bounds panic, modelled as none; likewise a call
with the stack pointer at capacity 16 writes stack slot 16 and panics, with
no fallback. -/
theorem C4_step_panics_out_of_bounds :
    emulate_cycle C4state 0 = none ∧
    emulate C4stackState (decode 0x2400) 0 = none := by
  exact ⟨rfl, rfl⟩

/-- C5: the claim predicts that 9xy0 adds 4 to PC when Vx and Vy differ and
2 when they are equal. The source has the condition inverted: on C5stateEq
(V0 = V1 = 5) opcode 0x9010 advances PC from 0x200 to 0x204, and on
C5stateNe (V0 = 5, V1 = 6) it advances to 0x202. -/
theorem C5_skip_if_unequal_condition_inverted :
    (emulate C5stateEq (decode 0x9010) 0).map (fun c => c.program_counter) = some 0x204 ∧
    (emulate C5stateNe (decode 0x9010) 0).map (fun c => c.program_counter) = some 0x202 := by
  exact ⟨by decide, by decide⟩

/-- C6: the claim predicts memory[0x300] = 2, memory[0x301] = 3,
memory[0x302] = 4 after the BCD store of V0 = 234 with I = 0x300. The third
write of the source targets I + 1 again instead of I + 2, so the tens digit
is overwritten by the ones digit: the result is (2, 4, 0). -/
theorem C6_bcd_third_write_hits_i_plus_1 :
    (emulate C6state (decode 0xF033) 0).map
      (fun c => (c.memory 0x300, c.memory 0x301, c.memory 0x302)) = some (2, 4, 0) := by
  decide

/-- C7: the claim predicts that Fx55 copies V0..Vx inclusive to memory at I
and that a dump, register zeroing, load round trip restores (1, 2, 3, 4).
The source re-extracts x from the already-extracted nibble (always 0), so
the 0..x loop runs zero iterations: the dump 0xF355 writes nothing to
memory, and the round trip with load 0xF365 leaves every register 0. -/
theorem C7_register_dump_load_copy_nothing :
    (emulate C7state (decode 0xF355) 0).map
      (fun c => (c.memory 0x300, c.memory 0x301, c.memory 0x302, c.memory 0x303)) =
      some (0, 0, 0, 0) ∧
    ((emulate C7state (decode 0xF355) 0).map
        (fun c => { c with register := ⟨fun _ => 0⟩ })).bind
      (fun c => (emulate c (decode 0xF365) 0).map
        (fun c => (c.register.v 0, c.register.v 1, c.register.v 2, c.register.v 3))) =
      some (0, 0, 0, 0) := by
  exact ⟨by decide, by decide⟩

/-- C8: the claim predicts Vx = random AND nn, so every set bit of Vx is set
in nn. Executing 0xC000 (nn = 0) on a fresh machine with the random draw
0xFF sets V0 to 0xF0: the source masks the random byte with memory[nn]
(here the first fontset byte 0xF0), not with the immediate nn, and 0xF0 has
four bits that nn = 0 lacks. -/
theorem C8_rand_masks_with_memory_at_nn :
    (emulate CPU.new (decode 0xC000) 0xFF).map (fun c => c.register.v 0) = some 0xF0 := by
  decide

/-- C9 counterexample: the claim predicts that executing an undefined opcode
still advances PC by 2. Opcode 0xE000 decodes to the UNKNOWN variant, but
executing it on a fresh machine leaves PC at 0x200 instead of 0x202. -/
theorem C9_unknown_pc_not_advanced_counterexample :
    decode 0xE000 = Opcode.UNKNOWN 0xE 0 0 0 ∧
    (emulate CPU.new (decode 0xE000) 0).map (fun c => c.program_counter) = some 0x200 := by
  exact ⟨rfl, by decide⟩

/-- C9 amended: for every machine state, executing an opcode that decodes to
the explicit unknown-instruction variant completes without crashing and
leaves the program counter, registers, framebuffer and stack unchanged (only
the timers tick and the draw flag resets): the machine stalls on malformed
input rather than advancing PC by 2. -/
theorem C9_unknown_no_crash_pc_unchanged (st : CPU) (o rnd a b d e : Nat)
    (h : decode o = Opcode.UNKNOWN a b d e) :
    ∃ st2, emulate st (decode o) rnd = some st2 ∧
      st2.program_counter = st.program_counter ∧
      st2.register = st.register ∧ st2.gfx = st.gfx ∧
      st2.stack = st.stack ∧ st2.stack_pointer = st.stack_pointer := by
  refine ⟨tickTimers st, ?_, tickTimers_program_counter st, tickTimers_register st,
    tickTimers_gfx st, tickTimers_stack st, tickTimers_stack_pointer st⟩
  rw [h]
  rfl

/-- C9 witness: the amended theorem applied to a fresh machine and the
undefined opcode 0xE000. -/
theorem C9_unknown_no_crash_pc_unchanged_witness :
    ∃ st2, emulate CPU.new (decode 0xE000) 0 = some st2 ∧
      st2.program_counter = CPU.new.program_counter ∧
      st2.register = CPU.new.register ∧ st2.gfx = CPU.new.gfx ∧
      st2.stack = CPU.new.stack ∧ st2.stack_pointer = CPU.new.stack_pointer :=
  C9_unknown_no_crash_pc_unchanged CPU.new 0xE000 0 0xE 0 0 0 rfl

/-- C10: for every machine state whose stack pointer is 0, executing the
Return variant completes without crashing, leaves the stack pointer at 0
(the decrement is guarded by stack_pointer > 0), and sets the program
counter to the value in stack slot 0. -/
theorem C10_return_underflow_clamps_sp (st : CPU) (rnd : Nat) (h : st.stack_pointer = 0) :
    ∃ st2, emulate st Opcode.Return rnd = some st2 ∧ st2.stack_pointer = 0 ∧
      st2.program_counter = st.stack 0 := by
  refine ⟨{ tickTimers st with program_counter := st.stack 0 }, ?_, ?_, rfl⟩
  · simp [emulate, vecGet, STACK_LEN, tickTimers_stack, tickTimers_stack_pointer, h]
  · simp [tickTimers_stack_pointer, h]

/-- C10 witness: the theorem applied to a machine whose stack pointer is 0
and whose stack slot 0 holds 0x123. -/
theorem C10_return_underflow_clamps_sp_witness :
    ∃ st2, emulate C10state Opcode.Return 0 = some st2 ∧ st2.stack_pointer = 0 ∧
      st2.program_counter = C10state.stack 0 :=
  C10_return_underflow_clamps_sp C10state 0 rfl

end Chip8
